import Mathlib

/-!
# Resource pool of `lesson8/fund_less8_exer1/src/main.c`

A shallow embedding of the semaphore/mutex protocol of `main.c`:
`get_access`, `release_access`, `producer`, `create_threads` and
`cleanup_threads`, over the two kernel objects `instance_monitor_sem`
(a `k_sem`) and `my_mutex` (a `k_mutex`).

The kernel calls (`k_sem_*`, `k_mutex_*`) are Zephyr's; they are written
here after `kernel/sem.c` and `kernel/mutex.c`, restricted to the timeouts
`main.c` passes them.  Tasks are identified by a natural number, the
`_current` of the kernel.  The tasks considered are those that call
`get_access`, `release_access` and `cleanup_threads`; `main_mutex_thread`,
which locks `my_mutex` directly, is left out, so no task is ever pended on
the mutex.
-/

namespace NcsFund

/-! ## Kernel objects -/

/-- Error numbers returned (negated) by the kernel calls. -/
def EPERM : Int := 1

/-- Error number of an expired wait. -/
def EAGAIN : Int := 11

/-- Error number of a failed zero-wait attempt. -/
def EBUSY : Int := 16

/-- Error number of an invalid argument. -/
def EINVAL : Int := 22

/-- Modulus of the kernel's `unsigned int` / `uint32_t` counters. -/
def UINT_MOD : Nat := 4294967296

/-- Counting semaphore: `struct k_sem` with its `count` and `limit` fields. -/
structure k_sem where
  count : Nat
  limit : Nat
deriving DecidableEq, Repr

/-- Mutex: `struct k_mutex` with its `owner` (a task, or NULL) and `lock_count`. -/
structure k_mutex where
  owner : Option Nat
  lock_count : Nat
deriving DecidableEq, Repr

/-- Kernel `k_sem_init(sem, initial_count, limit)`: stores both fields. -/
def k_sem_init (initial_count limit : Nat) : k_sem :=
  { count := initial_count, limit := limit }

/-- Kernel `k_sem_count_get`: reads the count. -/
def k_sem_count_get (sem : k_sem) : Nat := sem.count

/-- Kernel `k_sem_give` when no task is pended on the semaphore:
`sem->count += (sem->count != sem->limit) ? 1U : 0U;` on an unsigned int. -/
def k_sem_give (sem : k_sem) : k_sem :=
  { sem with count := (sem.count + (if sem.count ≠ sem.limit then 1 else 0)) % UINT_MOD }

/-- Kernel `k_sem_take` as it returns to a caller that waited with a bound
and received no hand-off: a positive count is decremented and 0 returned,
otherwise the wait runs out and `-EAGAIN` is returned. -/
def k_sem_take (sem : k_sem) : k_sem × Int :=
  if 0 < sem.count then ({ sem with count := sem.count - 1 }, 0) else (sem, -EAGAIN)

/-- Kernel `k_sem_reset`: `sem->count = 0` (the limit is kept). -/
def k_sem_reset (sem : k_sem) : k_sem := { sem with count := 0 }

/-- Kernel `k_mutex_init`: `owner = NULL`, `lock_count = 0`. -/
def k_mutex_init : k_mutex := { owner := none, lock_count := 0 }

/-- Kernel `k_mutex_lock(mutex, K_NO_WAIT)` called by task `cur`: succeeds when
`lock_count == 0` or the caller already owns the mutex, else `-EBUSY` at once. -/
def k_mutex_lock (mutex : k_mutex) (cur : Nat) : k_mutex × Int :=
  if mutex.lock_count = 0 ∨ mutex.owner = some cur then
    ({ owner := some cur, lock_count := (mutex.lock_count + 1) % UINT_MOD }, 0)
  else (mutex, -EBUSY)

/-- Kernel `k_mutex_unlock` called by task `cur`, with no task pended on the mutex:
`-EINVAL` when unowned, `-EPERM` when owned by another task, otherwise the lock
count drops and the mutex becomes unowned when it reaches zero. -/
def k_mutex_unlock (mutex : k_mutex) (cur : Nat) : k_mutex × Int :=
  if mutex.owner = none then (mutex, -EINVAL)
  else if mutex.owner ≠ some cur then (mutex, -EPERM)
  else if 1 < mutex.lock_count then ({ mutex with lock_count := mutex.lock_count - 1 }, 0)
  else ({ owner := none, lock_count := 0 }, 0)

/-! ## The pool and its two operations -/

/-- The two globals of `main.c`: `instance_monitor_sem` and `my_mutex`. -/
structure Pool where
  instance_monitor_sem : k_sem
  my_mutex : k_mutex
deriving DecidableEq, Repr

/-- Which exit of `get_access` / `release_access` was taken, with the count the
exit passes to `printk` where it passes one. -/
inductive Outcome where
  | mutex_not_available
  | semaphore_not_available
  | resource_taken (n : Nat)
  | resource_given (n : Nat)
deriving DecidableEq, Repr

/-- The `%d` conversion of `printk` applied to an `unsigned int` argument. -/
def fmt_d (v : Nat) : String :=
  if v % UINT_MOD < 2147483648 then toString (v % UINT_MOD)
  else "-" ++ toString (UINT_MOD - v % UINT_MOD)

/-- What a call returns to the embedding: the pool afterwards, the exit taken and
the text handed to `printk`. -/
structure Ret where
  pool : Pool
  outcome : Outcome
  console : String
deriving DecidableEq, Repr

/-- Lines 41-44 of `get_access`: the zero-wait `k_mutex_lock`.  On failure the
function prints and returns (`some` result); on success the caller goes on to the
bounded `k_sem_take` holding the mutex (`none`, with the pool after the lock). -/
def get_access_lock (cur : Nat) (consumer_name : String) (s : Pool) : Pool × Option Ret :=
  match k_mutex_lock s.my_mutex cur with
  | (m, rc) =>
    if rc ≠ 0 then
      (s, some { pool := s, outcome := .mutex_not_available,
                 console := "Mutex not available for " ++ consumer_name ++ "\n" })
    else ({ s with my_mutex := m }, none)

/-- Lines 47-57 of `get_access`: the bounded `k_sem_take` returns, then the print
and the `k_mutex_unlock` of the exit taken. -/
def get_access_take (cur : Nat) (consumer_name : String) (s : Pool) : Ret :=
  match k_sem_take s.instance_monitor_sem with
  | (sem, rc) =>
    if rc ≠ 0 then
      { pool := { s with my_mutex := (k_mutex_unlock s.my_mutex cur).1 },
        outcome := .semaphore_not_available,
        console := "Semaphore not available for " ++ consumer_name ++ "\n" }
    else
      { pool := { instance_monitor_sem := sem, my_mutex := (k_mutex_unlock s.my_mutex cur).1 },
        outcome := .resource_taken (k_sem_count_get sem),
        console := consumer_name ++ ": Resource taken and available_instance_count = "
                     ++ fmt_d (k_sem_count_get sem) ++ "\n" }

/-- The function `get_access` run by task `cur` with nothing else running in between. -/
def get_access (cur : Nat) (consumer_name : String) (s : Pool) : Ret :=
  match get_access_lock cur consumer_name s with
  | (_, some r) => r
  | (s1, none) => get_access_take cur consumer_name s1

/-- The function `release_access` run by task `cur`: zero-wait lock, print of the
count read by `k_sem_count_get`, then `k_sem_give` and `k_mutex_unlock`. -/
def release_access (cur : Nat) (consumer_name : String) (s : Pool) : Ret :=
  match k_mutex_lock s.my_mutex cur with
  | (m, rc) =>
    if rc ≠ 0 then
      { pool := s, outcome := .mutex_not_available,
        console := "Mutex not available for " ++ consumer_name ++ "\n" }
    else
      let n := k_sem_count_get s.instance_monitor_sem
      { pool := { instance_monitor_sem := k_sem_give s.instance_monitor_sem,
                  my_mutex := (k_mutex_unlock m cur).1 },
        outcome := .resource_given n,
        console := consumer_name ++ ": Resource given and available_instance_count = "
                     ++ fmt_d n ++ "\n" }

/-- One pass of the `while (1)` body of `producer` run by task `cur`: the
unguarded count check, then `release_access("Producer")` when it is positive. -/
def producer_iteration (cur : Nat) (s : Pool) : Pool × Option Ret :=
  if 0 < k_sem_count_get s.instance_monitor_sem then
    let r := release_access cur "Producer" s
    (r.pool, some r)
  else (s, none)

/-- The pool set up by `create_threads`: `k_sem_init(&instance_monitor_sem, 10, 10)`
and `k_mutex_init(&my_mutex)`. -/
def create_threads : Pool :=
  { instance_monitor_sem := k_sem_init 10 10, my_mutex := k_mutex_init }

/-- The pool after `cleanup_threads`: `k_sem_reset(&instance_monitor_sem)` and
`k_mutex_init(&my_mutex)`. -/
def cleanup_threads (s : Pool) : Pool :=
  { instance_monitor_sem := k_sem_reset s.instance_monitor_sem, my_mutex := k_mutex_init }

/-! ## Interleaved runs -/

/-- A scheduling step.  `get_access` has one suspension point, the bounded wait,
so it contributes two steps; `release_access` and `cleanup_threads` have none. -/
inductive Action where
  | get_lock (cur : Nat)
  | get_take (cur : Nat)
  | release (cur : Nat)
  | cleanup
deriving DecidableEq, Repr

/-- The pool, the tasks that are inside `get_access` between its lock and the
return of its `k_sem_take`, and the exits taken so far, oldest first. -/
structure Sys where
  pool : Pool
  waiting : List Nat
  trace : List (Nat × Outcome)
deriving DecidableEq, Repr

/-- Name under which task `cur` logs; the name plays no part in the protocol. -/
def task_name (cur : Nat) : String := "Task_" ++ toString cur

/-- One scheduling step.  A step that the task cannot take at this point (a second
call while it is inside `get_access`, or a resumption with no call in progress)
leaves the system as it is.  A give that arrives while a task waits raises the
count, and the waiting task consumes it when its take returns (the kernel hands
the unit to the waiter directly, with the same count afterwards).  A waiting task
looks at the count when it resumes, so after the `k_sem_reset` of `cleanup_threads`
it finds 0 and times out unless a give comes first. -/
def step (a : Action) (σ : Sys) : Sys :=
  match a with
  | .get_lock cur =>
    if cur ∈ σ.waiting then σ
    else
      match get_access_lock cur (task_name cur) σ.pool with
      | (_, some r) => { σ with pool := r.pool, trace := σ.trace ++ [(cur, r.outcome)] }
      | (p, none) => { σ with pool := p, waiting := cur :: σ.waiting }
  | .get_take cur =>
    if cur ∈ σ.waiting then
      let r := get_access_take cur (task_name cur) σ.pool
      { pool := r.pool, waiting := σ.waiting.erase cur, trace := σ.trace ++ [(cur, r.outcome)] }
    else σ
  | .release cur =>
    if cur ∈ σ.waiting then σ
    else
      let r := release_access cur (task_name cur) σ.pool
      { σ with pool := r.pool, trace := σ.trace ++ [(cur, r.outcome)] }
  | .cleanup => { σ with pool := cleanup_threads σ.pool }

/-- Runs a schedule from left to right. -/
def exec : List Action → Sys → Sys
  | [], σ => σ
  | a :: as, σ => exec as (step a σ)

/-- The system right after `create_threads`: no call in progress, nothing logged. -/
def boot : Sys := { pool := create_threads, waiting := [], trace := [] }

/-- Number of `Resource taken` exits in a trace. -/
def successful_acquires (t : List (Nat × Outcome)) : Nat :=
  t.countP fun e => match e.2 with
    | .resource_taken _ => true
    | _ => false

/-- Number of `Resource given` exits in a trace. -/
def successful_releases (t : List (Nat × Outcome)) : Nat :=
  t.countP fun e => match e.2 with
    | .resource_given _ => true
    | _ => false

/-- The step is not a `release_access` call made while the count is at its limit. -/
def not_release_at_capacity (a : Action) (σ : Sys) : Prop :=
  match a with
  | .release _ => σ.pool.instance_monitor_sem.count ≠ σ.pool.instance_monitor_sem.limit
  | _ => True

/-- No `release_access` call of the schedule is made while the count is at its limit. -/
def no_release_at_capacity : List Action → Sys → Prop
  | [], _ => True
  | a :: as, σ => not_release_at_capacity a σ ∧ no_release_at_capacity as (step a σ)

/-- The schedule consists of `get_access` and `release_access` steps only. -/
def only_get_release (as : List Action) : Prop := ∀ a ∈ as, a ≠ Action.cleanup

/-- The counter invariant: the count is at most the limit and the limit is 10. -/
def counter_ok (p : Pool) : Prop :=
  p.instance_monitor_sem.count ≤ p.instance_monitor_sem.limit ∧
  p.instance_monitor_sem.limit = 10

/-- The accounting invariant: the limit is 10, the count is within it, and the count
plus the successful acquires equals 10 plus the successful releases. -/
def balanced (σ : Sys) : Prop :=
  counter_ok σ.pool ∧
  σ.pool.instance_monitor_sem.count + successful_acquires σ.trace
    = 10 + successful_releases σ.trace

/-- The guard invariant of interleaved runs: the guard is either free, or locked
once by a task that is inside `get_access`. -/
def guard_ok (σ : Sys) : Prop :=
  σ.pool.my_mutex = k_mutex_init ∨
  ∃ c, c ∈ σ.waiting ∧ σ.pool.my_mutex = ⟨some c, 1⟩

/-- The diagnostic line the specification gives for an exit (without line end). -/
def spec_line (name : String) : Outcome → String
  | .resource_taken n => name ++ ": Resource taken and available_instance_count = " ++ toString n
  | .resource_given n => name ++ ": Resource given and available_instance_count = " ++ toString n
  | .mutex_not_available => name ++ ": Mutex not available"
  | .semaphore_not_available => name ++ ": Semaphore not available"


theorem get_access_free_pos (cur : Nat) (name : String) (s : Pool)
    (hf : s.my_mutex = k_mutex_init) (hp : 0 < s.instance_monitor_sem.count) :
    get_access cur name s =
      { pool := { instance_monitor_sem :=
                    { count := s.instance_monitor_sem.count - 1,
                      limit := s.instance_monitor_sem.limit },
                  my_mutex := k_mutex_init },
        outcome := .resource_taken (s.instance_monitor_sem.count - 1),
        console := name ++ ": Resource taken and available_instance_count = "
                     ++ fmt_d (s.instance_monitor_sem.count - 1) ++ "\n" } := by
  obtain ⟨⟨c, l⟩, m⟩ := s
  simp only at hf hp
  subst hf
  simp [get_access, get_access_lock, get_access_take, k_mutex_lock, k_mutex_unlock, k_sem_take,
    k_mutex_init, k_sem_count_get, UINT_MOD, hp]

theorem get_access_free_zero (cur : Nat) (name : String) (s : Pool)
    (hf : s.my_mutex = k_mutex_init) (hz : s.instance_monitor_sem.count = 0) :
    get_access cur name s =
      { pool := s, outcome := .semaphore_not_available,
        console := "Semaphore not available for " ++ name ++ "\n" } := by
  obtain ⟨⟨c, l⟩, m⟩ := s
  simp only at hf hz
  subst hf hz
  simp [get_access, get_access_lock, get_access_take, k_mutex_lock, k_mutex_unlock, k_sem_take,
    k_mutex_init, UINT_MOD, EAGAIN]

theorem k_mutex_lock_busy (m : k_mutex) (cur : Nat)
    (hk : m.lock_count ≠ 0) (ho : m.owner ≠ some cur) :
    k_mutex_lock m cur = (m, -EBUSY) := by
  simp [k_mutex_lock, hk, ho]

theorem get_access_busy (cur : Nat) (name : String) (s : Pool)
    (hk : s.my_mutex.lock_count ≠ 0) (ho : s.my_mutex.owner ≠ some cur) :
    get_access cur name s =
      { pool := s, outcome := .mutex_not_available,
        console := "Mutex not available for " ++ name ++ "\n" } := by
  simp [get_access, get_access_lock, k_mutex_lock_busy _ _ hk ho, EBUSY]

theorem release_access_busy (cur : Nat) (name : String) (s : Pool)
    (hk : s.my_mutex.lock_count ≠ 0) (ho : s.my_mutex.owner ≠ some cur) :
    release_access cur name s =
      { pool := s, outcome := .mutex_not_available,
        console := "Mutex not available for " ++ name ++ "\n" } := by
  simp [release_access, k_mutex_lock_busy _ _ hk ho, EBUSY]

theorem release_access_free (cur : Nat) (name : String) (s : Pool)
    (hf : s.my_mutex = k_mutex_init) :
    release_access cur name s =
      { pool := { instance_monitor_sem := k_sem_give s.instance_monitor_sem,
                  my_mutex := k_mutex_init },
        outcome := .resource_given s.instance_monitor_sem.count,
        console := name ++ ": Resource given and available_instance_count = "
                     ++ fmt_d s.instance_monitor_sem.count ++ "\n" } := by
  obtain ⟨sem, m⟩ := s
  simp only at hf
  subst hf
  simp [release_access, k_mutex_lock, k_mutex_unlock, k_mutex_init, k_sem_count_get, UINT_MOD]

theorem get_access_owner_ne (cur : Nat) (name : String) (s : Pool)
    (h : s.my_mutex.owner ≠ some cur) :
    (get_access cur name s).pool.my_mutex.owner ≠ some cur := by
  obtain ⟨⟨c, l⟩, ⟨o, k⟩⟩ := s
  simp only at h
  by_cases hk : k = 0
  · subst hk
    by_cases hc : 0 < c
    · simp [get_access, get_access_lock, get_access_take, k_mutex_lock, k_mutex_unlock,
        k_sem_take, UINT_MOD, hc]
    · simp [get_access, get_access_lock, get_access_take, k_mutex_lock, k_mutex_unlock,
        k_sem_take, UINT_MOD, hc, EAGAIN]
  · rw [get_access_busy cur name _ hk h]
    exact h

theorem release_access_owner_ne (cur : Nat) (name : String) (s : Pool)
    (h : s.my_mutex.owner ≠ some cur) :
    (release_access cur name s).pool.my_mutex.owner ≠ some cur := by
  obtain ⟨⟨c, l⟩, ⟨o, k⟩⟩ := s
  simp only at h
  by_cases hk : k = 0
  · subst hk
    simp [release_access, k_mutex_lock, k_mutex_unlock, UINT_MOD]
  · rw [release_access_busy cur name _ hk h]
    exact h

theorem k_mutex_unlock_owner_ne (m : k_mutex) (cur : Nat) (h : m.lock_count ≤ 1) :
    (k_mutex_unlock m cur).1.owner ≠ some cur := by
  obtain ⟨o, k⟩ := m
  simp only at h
  have hk : ¬ 1 < k := by omega
  unfold k_mutex_unlock
  by_cases h1 : o = none
  · simp [h1]
  · by_cases h2 : o = some cur
    · simp [h2, hk]
    · simp [h1, h2]

theorem get_access_take_owner_ne (cur : Nat) (name : String) (s : Pool)
    (h : s.my_mutex.lock_count ≤ 1) :
    (get_access_take cur name s).pool.my_mutex.owner ≠ some cur := by
  have hu := k_mutex_unlock_owner_ne s.my_mutex cur h
  unfold get_access_take
  by_cases hc : 0 < s.instance_monitor_sem.count
  · simpa [k_sem_take, hc] using hu
  · simpa [k_sem_take, hc, EAGAIN] using hu

/-- The text printed by `get_access` is fixed by the exit it takes. -/
theorem get_access_console (cur : Nat) (name : String) (s : Pool) :
    (get_access cur name s).console =
      match (get_access cur name s).outcome with
      | .mutex_not_available => "Mutex not available for " ++ name ++ "\n"
      | .semaphore_not_available => "Semaphore not available for " ++ name ++ "\n"
      | .resource_taken n =>
          name ++ ": Resource taken and available_instance_count = " ++ fmt_d n ++ "\n"
      | .resource_given n =>
          name ++ ": Resource given and available_instance_count = " ++ fmt_d n ++ "\n" := by
  obtain ⟨⟨c, l⟩, ⟨o, k⟩⟩ := s
  by_cases hl : k = 0 ∨ o = some cur
  · by_cases hc : 0 < c
    · simp [get_access, get_access_lock, get_access_take, k_mutex_lock, k_sem_take, hl, hc]
    · simp [get_access, get_access_lock, get_access_take, k_mutex_lock, k_sem_take, hl, hc,
        EAGAIN]
  · simp [get_access, get_access_lock, k_mutex_lock, hl, EBUSY]

/-- The text printed by `release_access` is fixed by the exit it takes. -/
theorem release_access_console (cur : Nat) (name : String) (s : Pool) :
    (release_access cur name s).console =
      match (release_access cur name s).outcome with
      | .mutex_not_available => "Mutex not available for " ++ name ++ "\n"
      | .semaphore_not_available => "Semaphore not available for " ++ name ++ "\n"
      | .resource_taken n =>
          name ++ ": Resource taken and available_instance_count = " ++ fmt_d n ++ "\n"
      | .resource_given n =>
          name ++ ": Resource given and available_instance_count = " ++ fmt_d n ++ "\n" := by
  obtain ⟨⟨c, l⟩, ⟨o, k⟩⟩ := s
  by_cases hl : k = 0 ∨ o = some cur
  · simp [release_access, k_mutex_lock, hl]
  · simp [release_access, k_mutex_lock, hl, EBUSY]

/-- Below `2^31` the `%d` conversion prints the plain decimal numeral. -/
theorem fmt_d_small (n : Nat) (h : n < 2147483648) : fmt_d n = toString n := by
  have h1 : n % UINT_MOD = n := Nat.mod_eq_of_lt (by unfold UINT_MOD; omega)
  simp [fmt_d, h1, h]

/-! ## Claims on single calls -/

/-- C2: a task that does not hold the guard when it calls `get_access` or
`release_access` does not hold it when the call returns, on every exit; a guard
that was free before the call is free after it, also when `get_access` leaves
through its timeout exit; and the second half of `get_access`, resumed in any
pool whose guard is locked at most once, returns with the caller not holding it. -/
theorem guard_released_on_every_exit (cur : Nat) (name : String) (s : Pool)
    (h : s.my_mutex.owner ≠ some cur) :
    (get_access cur name s).pool.my_mutex.owner ≠ some cur ∧
    (release_access cur name s).pool.my_mutex.owner ≠ some cur ∧
    (s.my_mutex = k_mutex_init →
      (get_access cur name s).pool.my_mutex = k_mutex_init ∧
      (release_access cur name s).pool.my_mutex = k_mutex_init) ∧
    (s.my_mutex = k_mutex_init → s.instance_monitor_sem.count = 0 →
      (get_access cur name s).outcome = .semaphore_not_available ∧
      (get_access cur name s).pool.my_mutex = k_mutex_init) ∧
    (∀ s1 : Pool, s1.my_mutex.lock_count ≤ 1 →
      (get_access_take cur name s1).pool.my_mutex.owner ≠ some cur) := by
  refine ⟨get_access_owner_ne cur name s h, release_access_owner_ne cur name s h, ?_, ?_,
    fun s1 h1 => get_access_take_owner_ne cur name s1 h1⟩
  · intro hf
    refine ⟨?_, ?_⟩
    · by_cases hc : 0 < s.instance_monitor_sem.count
      · rw [get_access_free_pos cur name s hf hc]
      · rw [get_access_free_zero cur name s hf (by omega)]
        exact hf
    · rw [release_access_free cur name s hf]
  · intro hf hz
    rw [get_access_free_zero cur name s hf hz]
    exact ⟨rfl, hf⟩

/-- C2 at a concrete call: `Consumer_1` calling `get_access` on the fresh pool. -/
theorem guard_released_on_every_exit_witness :
    create_threads.my_mutex.owner ≠ some 1 ∧
    (get_access 1 "Consumer_1" create_threads).pool.my_mutex.owner ≠ some 1 :=
  ⟨by decide, (guard_released_on_every_exit 1 "Consumer_1" create_threads (by decide)).1⟩

/-- C3: when the guard is held by another task, `get_access` and `release_access`
both leave through the guard-busy exit, `get_access` before reaching its bounded
wait, and the pool is unchanged; when the guard is free and the count is 0 and
nothing is given during the wait, `get_access` leaves through the no-instance
exit and the pool is unchanged (the count stays 0, the guard stays free). -/
theorem failed_operations_change_nothing (cur other : Nat) (name : String) (s : Pool) :
    (s.my_mutex.owner = some other → other ≠ cur → 0 < s.my_mutex.lock_count →
      (get_access cur name s).outcome = .mutex_not_available ∧
      (get_access cur name s).pool = s ∧
      (get_access_lock cur name s).2.isSome = true ∧
      (release_access cur name s).outcome = .mutex_not_available ∧
      (release_access cur name s).pool = s) ∧
    (s.my_mutex = k_mutex_init → s.instance_monitor_sem.count = 0 →
      (get_access cur name s).outcome = .semaphore_not_available ∧
      (get_access cur name s).pool = s ∧
      (get_access cur name s).pool.instance_monitor_sem.count = 0) := by
  constructor
  · intro ho hne hk
    have hk0 : s.my_mutex.lock_count ≠ 0 := by omega
    have ho1 : s.my_mutex.owner ≠ some cur := by
      rw [ho]
      intro hc
      exact hne (Option.some.inj hc)
    rw [get_access_busy cur name s hk0 ho1, release_access_busy cur name s hk0 ho1]
    refine ⟨rfl, rfl, ?_, rfl, rfl⟩
    simp [get_access_lock, k_mutex_lock_busy _ _ hk0 ho1, EBUSY]
  · intro hf hz
    rw [get_access_free_zero cur name s hf hz]
    exact ⟨rfl, rfl, hz⟩

/-- C3 at concrete pools: guard held by task 2 with count 7, and guard free with count 0. -/
theorem failed_operations_change_nothing_witness :
    ((get_access 1 "Consumer_1"
        { instance_monitor_sem := ⟨7, 10⟩, my_mutex := ⟨some 2, 1⟩ }).outcome
        = .mutex_not_available ∧
      (release_access 1 "Consumer_1"
        { instance_monitor_sem := ⟨7, 10⟩, my_mutex := ⟨some 2, 1⟩ }).pool
        = { instance_monitor_sem := ⟨7, 10⟩, my_mutex := ⟨some 2, 1⟩ }) ∧
    (get_access 1 "Consumer_1"
        { instance_monitor_sem := ⟨0, 10⟩, my_mutex := k_mutex_init }).pool
        = { instance_monitor_sem := ⟨0, 10⟩, my_mutex := k_mutex_init } :=
  ⟨⟨((failed_operations_change_nothing 1 2 "Consumer_1"
        { instance_monitor_sem := ⟨7, 10⟩, my_mutex := ⟨some 2, 1⟩ }).1
        rfl (by decide) (by decide)).1,
    ((failed_operations_change_nothing 1 2 "Consumer_1"
        { instance_monitor_sem := ⟨7, 10⟩, my_mutex := ⟨some 2, 1⟩ }).1
        rfl (by decide) (by decide)).2.2.2.2⟩,
   ((failed_operations_change_nothing 1 2 "Consumer_1"
        { instance_monitor_sem := ⟨0, 10⟩, my_mutex := k_mutex_init }).2 rfl rfl).2.1⟩

/-- C4: with the guard free and the count at `n > 0`, `get_access` leaves through
its success exit, the count is `n - 1` afterwards, the count it prints is that new
count `n - 1`, and the guard is free again; so three calls in a row on the pool of
`create_threads` (count 10, limit 10) all succeed and leave the count at 7. -/
theorem get_access_takes_one (cur : Nat) (name : String) (s : Pool) (n : Nat)
    (hf : s.my_mutex = k_mutex_init) (hn : s.instance_monitor_sem.count = n) (hpos : 0 < n) :
    ((get_access cur name s).outcome = .resource_taken (n - 1) ∧
      (get_access cur name s).pool.instance_monitor_sem.count = n - 1 ∧
      (get_access cur name s).pool.instance_monitor_sem.limit = s.instance_monitor_sem.limit ∧
      (get_access cur name s).pool.my_mutex = k_mutex_init ∧
      (get_access cur name s).console =
        name ++ ": Resource taken and available_instance_count = " ++ fmt_d (n - 1) ++ "\n") ∧
    (∀ (c1 c2 c3 : Nat) (n1 n2 n3 : String),
      (get_access c1 n1 create_threads).outcome = .resource_taken 9 ∧
      (get_access c2 n2 (get_access c1 n1 create_threads).pool).outcome = .resource_taken 8 ∧
      (get_access c3 n3 (get_access c2 n2 (get_access c1 n1 create_threads).pool).pool).outcome
        = .resource_taken 7 ∧
      (get_access c3 n3 (get_access c2 n2 (get_access c1 n1 create_threads).pool).pool).pool
        = { instance_monitor_sem := ⟨7, 10⟩, my_mutex := k_mutex_init }) := by
  constructor
  · subst hn
    rw [get_access_free_pos cur name s hf hpos]
    exact ⟨rfl, rfl, rfl, rfl, rfl⟩
  · intro c1 c2 c3 n1 n2 n3
    have e1 : get_access c1 n1 create_threads = _ :=
      get_access_free_pos c1 n1 create_threads rfl (by decide)
    rw [e1]
    have e2 := get_access_free_pos c2 n2
      { instance_monitor_sem := ⟨9, 10⟩, my_mutex := k_mutex_init } rfl (by decide)
    have e3 := get_access_free_pos c3 n3
      { instance_monitor_sem := ⟨8, 10⟩, my_mutex := k_mutex_init } rfl (by decide)
    simp only [create_threads, k_sem_init] at *
    simp only [Nat.reduceSub] at e2 e3 ⊢
    rw [e2]
    simp only
    rw [e3]
    simp

/-- C4 at a concrete call: `Consumer_1` on the fresh pool takes the count from 10 to 9. -/
theorem get_access_takes_one_witness :
    create_threads.my_mutex = k_mutex_init ∧ create_threads.instance_monitor_sem.count = 10 ∧
    0 < 10 ∧ (get_access 1 "Consumer_1" create_threads).outcome = .resource_taken 9 :=
  ⟨rfl, rfl, by decide,
    (get_access_takes_one 1 "Consumer_1" create_threads 10 rfl rfl (by decide)).1.1⟩


/-- C5: on the pool with the guard free, count 7 and limit 10, `release_access`
leaves through its success exit printing the count 7, the value read before its
`k_sem_give`, while the count after the call is 8. -/
theorem release_access_prints_count_before_give :
    (release_access 0 "Producer"
        { instance_monitor_sem := ⟨7, 10⟩, my_mutex := k_mutex_init }).outcome
      = .resource_given 7 ∧
    (release_access 0 "Producer"
        { instance_monitor_sem := ⟨7, 10⟩, my_mutex := k_mutex_init }).console
      = "Producer: Resource given and available_instance_count = 7\n" ∧
    (release_access 0 "Producer"
        { instance_monitor_sem := ⟨7, 10⟩, my_mutex := k_mutex_init }).pool
      = { instance_monitor_sem := ⟨8, 10⟩, my_mutex := k_mutex_init } := by
  decide

/-- C7, refuted as stated: on the pool of `create_threads` (guard free, count 10,
limit 10) `release_access`, and so the first pass of the producer loop, leaves
through the ordinary `Resource given` exit. -/
theorem release_at_capacity_is_ordinary_success :
    (release_access 0 "Producer" create_threads).outcome = .resource_given 10 ∧
    (release_access 0 "Producer" create_threads).console
      = "Producer: Resource given and available_instance_count = 10\n" ∧
    producer_iteration 0 create_threads
      = (create_threads, some (release_access 0 "Producer" create_threads)) := by
  decide

/-- C7, amended: with the guard free and the count at its limit (a limit that fits
the 32-bit counter), `release_access` leaves through the ordinary success exit
printing the `Resource given` line with the limit as count, and the count stays at
the limit; the first pass of the producer loop on the pool of `create_threads` is
such a call and leaves that pool as it is. -/
theorem release_at_capacity_saturates (cur : Nat) (name : String) (s : Pool)
    (hf : s.my_mutex = k_mutex_init)
    (hc : s.instance_monitor_sem.count = s.instance_monitor_sem.limit)
    (hl : s.instance_monitor_sem.limit < UINT_MOD) :
    (release_access cur name s).outcome = .resource_given s.instance_monitor_sem.limit ∧
    (release_access cur name s).console =
      name ++ ": Resource given and available_instance_count = "
        ++ fmt_d s.instance_monitor_sem.limit ++ "\n" ∧
    (release_access cur name s).pool = s ∧
    (∀ p : Nat, producer_iteration p create_threads
      = (create_threads, some (release_access p "Producer" create_threads)) ∧
      (release_access p "Producer" create_threads).outcome = .resource_given 10) := by
  have hg : k_sem_give s.instance_monitor_sem = s.instance_monitor_sem := by
    obtain ⟨⟨c, l⟩, m⟩ := s
    simp only at hc hl
    subst hc
    simp [k_sem_give, Nat.mod_eq_of_lt hl]
  rw [release_access_free cur name s hf, hg, hc]
  refine ⟨rfl, rfl, ?_, ?_⟩
  · obtain ⟨sem, m⟩ := s
    simp only at hf
    rw [hf]
  · intro p
    have e := release_access_free p "Producer" create_threads rfl
    have hg10 : k_sem_give create_threads.instance_monitor_sem
        = create_threads.instance_monitor_sem := by decide
    rw [hg10] at e
    refine ⟨?_, ?_⟩
    · simp only [producer_iteration]
      rw [e]
      simp [create_threads, k_sem_init, k_sem_count_get]
    · rw [e]
      rfl

/-- C7 amended, at the pool of `create_threads`. -/
theorem release_at_capacity_saturates_witness :
    create_threads.my_mutex = k_mutex_init ∧
    create_threads.instance_monitor_sem.count = create_threads.instance_monitor_sem.limit ∧
    create_threads.instance_monitor_sem.limit < UINT_MOD ∧
    (release_access 0 "Producer" create_threads).pool = create_threads :=
  ⟨rfl, rfl, by decide,
    (release_at_capacity_saturates 0 "Producer" create_threads rfl rfl (by decide)).2.2.1⟩

/-- C8, refuted as stated: `cleanup_threads` on the pool of `create_threads` leaves
the count at 0, not at the 10 that `create_threads` sets. -/
theorem cleanup_does_not_restore_count :
    (cleanup_threads create_threads).instance_monitor_sem.count = 0 ∧
    create_threads.instance_monitor_sem.count = 10 ∧
    cleanup_threads create_threads ≠ create_threads := by
  decide

/-- C8, amended: after `cleanup_threads`, from any pool, the count is 0, the limit
is what it was (10 on every pool with limit 10) and the guard is free. -/
theorem cleanup_resets_count_to_zero (s : Pool) :
    (cleanup_threads s).instance_monitor_sem.count = 0 ∧
    (cleanup_threads s).instance_monitor_sem.limit = s.instance_monitor_sem.limit ∧
    (cleanup_threads s).my_mutex = k_mutex_init :=
  ⟨rfl, rfl, rfl⟩

/-- C10, refuted as stated: with the guard held by task 2, `get_access` for
`Consumer_1` prints `Mutex not available for Consumer_1`, which is not the line
`Consumer_1: Mutex not available`; with the guard free and the count 0 it prints
`Semaphore not available for Consumer_1`, not `Consumer_1: Semaphore not available`. -/
theorem busy_lines_differ_from_spec :
    (get_access 1 "Consumer_1"
        { instance_monitor_sem := ⟨7, 10⟩, my_mutex := ⟨some 2, 1⟩ }).console
      = "Mutex not available for Consumer_1\n" ∧
    (get_access 1 "Consumer_1"
        { instance_monitor_sem := ⟨7, 10⟩, my_mutex := ⟨some 2, 1⟩ }).console
      ≠ spec_line "Consumer_1" .mutex_not_available ++ "\n" ∧
    (get_access 1 "Consumer_1"
        { instance_monitor_sem := ⟨0, 10⟩, my_mutex := k_mutex_init }).console
      = "Semaphore not available for Consumer_1\n" ∧
    (get_access 1 "Consumer_1"
        { instance_monitor_sem := ⟨0, 10⟩, my_mutex := k_mutex_init }).console
      ≠ spec_line "Consumer_1" .semaphore_not_available ++ "\n" := by
  decide

/-- C10, amended: for every caller, name and pool, the line printed by `get_access`
or `release_access` is, by exit: `<name>: Resource taken and
available_instance_count = <n>` and `<name>: Resource given and
available_instance_count = <n>` (for counts `n` below `2^31`, in decimal) on the
success exits, `Mutex not available for <name>` when the guard is busy, and
`Semaphore not available for <name>` when the bounded wait runs out; each line
ends in a newline. -/
theorem printed_lines (cur : Nat) (name : String) (s : Pool) (r : Ret)
    (hr : r = get_access cur name s ∨ r = release_access cur name s) :
    match r.outcome with
    | .resource_taken n => n < 2147483648 →
        r.console = name ++ ": Resource taken and available_instance_count = "
          ++ toString n ++ "\n"
    | .resource_given n => n < 2147483648 →
        r.console = name ++ ": Resource given and available_instance_count = "
          ++ toString n ++ "\n"
    | .mutex_not_available => r.console = "Mutex not available for " ++ name ++ "\n"
    | .semaphore_not_available => r.console = "Semaphore not available for " ++ name ++ "\n" := by
  have hcon : r.console =
      match r.outcome with
      | .mutex_not_available => "Mutex not available for " ++ name ++ "\n"
      | .semaphore_not_available => "Semaphore not available for " ++ name ++ "\n"
      | .resource_taken n =>
          name ++ ": Resource taken and available_instance_count = " ++ fmt_d n ++ "\n"
      | .resource_given n =>
          name ++ ": Resource given and available_instance_count = " ++ fmt_d n ++ "\n" := by
    rcases hr with hr | hr
    · rw [hr]
      exact get_access_console cur name s
    · rw [hr]
      exact release_access_console cur name s
  rw [hcon]
  cases r.outcome with
  | mutex_not_available => rfl
  | semaphore_not_available => rfl
  | resource_taken n =>
    intro hn
    simp only [fmt_d_small n hn]
  | resource_given n =>
    intro hn
    simp only [fmt_d_small n hn]

/-- C10 amended, at the first `get_access` on the pool of `create_threads`. -/
theorem printed_lines_witness :
    (get_access 1 "Consumer_1" create_threads).outcome = .resource_taken 9 ∧
    (get_access 1 "Consumer_1" create_threads).console
      = "Consumer_1: Resource taken and available_instance_count = 9\n" :=
  ⟨by decide,
    have h := printed_lines 1 "Consumer_1" create_threads
      (get_access 1 "Consumer_1" create_threads) (Or.inl rfl)
    have ho : (get_access 1 "Consumer_1" create_threads).outcome = .resource_taken 9 := by decide
    by rw [ho] at h; exact h (by decide)⟩

/-! ## Interleaved runs: what each call does to the semaphore -/

/-- The lock half of `get_access` never touches the semaphore, and its only
early exit is the guard-busy one, with the pool unchanged. -/
theorem get_access_lock_spec (cur : Nat) (name : String) (p : Pool) :
    (get_access_lock cur name p).1.instance_monitor_sem = p.instance_monitor_sem ∧
    ∀ r, (get_access_lock cur name p).2 = some r →
      r.pool = p ∧ r.outcome = .mutex_not_available := by
  unfold get_access_lock
  by_cases hl : p.my_mutex.lock_count = 0 ∨ p.my_mutex.owner = some cur
  · simp [k_mutex_lock, hl]
  · simp [k_mutex_lock, hl, EBUSY]

/-- The take half of `get_access` either takes one unit and reports the new
count, or finds the count at 0 and leaves the semaphore as it is. -/
theorem get_access_take_spec (cur : Nat) (name : String) (p : Pool) :
    (0 < p.instance_monitor_sem.count ∧
      (get_access_take cur name p).pool.instance_monitor_sem
        = ⟨p.instance_monitor_sem.count - 1, p.instance_monitor_sem.limit⟩ ∧
      (get_access_take cur name p).outcome
        = .resource_taken (p.instance_monitor_sem.count - 1)) ∨
    (p.instance_monitor_sem.count = 0 ∧
      (get_access_take cur name p).pool.instance_monitor_sem = p.instance_monitor_sem ∧
      (get_access_take cur name p).outcome = .semaphore_not_available) := by
  unfold get_access_take
  by_cases hc : 0 < p.instance_monitor_sem.count
  · left
    simp [k_sem_take, hc, k_sem_count_get]
  · right
    simp [k_sem_take, hc, EAGAIN]
    omega

/-- The function `release_access` either leaves through the guard-busy exit with
the pool unchanged, or gives to the semaphore and reports the count read before. -/
theorem release_access_spec (cur : Nat) (name : String) (p : Pool) :
    ((release_access cur name p).pool = p ∧
      (release_access cur name p).outcome = .mutex_not_available) ∨
    ((release_access cur name p).pool.instance_monitor_sem
        = k_sem_give p.instance_monitor_sem ∧
      (release_access cur name p).outcome
        = .resource_given p.instance_monitor_sem.count) := by
  unfold release_access
  by_cases hl : p.my_mutex.lock_count = 0 ∨ p.my_mutex.owner = some cur
  · right
    simp [k_mutex_lock, hl, k_sem_count_get]
  · left
    simp [k_mutex_lock, hl, EBUSY]

/-- A give keeps the count within a limit of 10. -/
theorem k_sem_give_ok (sem : k_sem) (h : sem.count ≤ sem.limit) (hl : sem.limit = 10) :
    (k_sem_give sem).count ≤ (k_sem_give sem).limit ∧ (k_sem_give sem).limit = 10 := by
  obtain ⟨c, l⟩ := sem
  simp only at h hl
  subst hl
  by_cases hc : c = 10
  · subst hc
    simp [k_sem_give, UINT_MOD]
  · have h1 : (c + 1) % 4294967296 = c + 1 := Nat.mod_eq_of_lt (by omega)
    have h2 : (k_sem_give ⟨c, 10⟩).count = c + 1 := by
      simp [k_sem_give, UINT_MOD, hc, h1]
    have h3 : (k_sem_give ⟨c, 10⟩).limit = 10 := rfl
    rw [h2, h3]
    omega

/-- Every scheduling step keeps the counter invariant. -/
theorem step_counter_ok (a : Action) (σ : Sys) (h : counter_ok σ.pool) :
    counter_ok (step a σ).pool := by
  obtain ⟨hc, hl⟩ := h
  cases a with
  | get_lock cur =>
    simp only [step]
    split
    · exact ⟨hc, hl⟩
    · have hs := get_access_lock_spec cur (task_name cur) σ.pool
      split
      · next r heq =>
        have h2 := hs.2 r (by rw [heq])
        simp only
        rw [h2.1]
        exact ⟨hc, hl⟩
      · next p heq =>
        have h1 := hs.1
        rw [heq] at h1
        simp only at h1 ⊢
        unfold counter_ok
        rw [h1]
        exact ⟨hc, hl⟩
  | get_take cur =>
    simp only [step]
    split
    · simp only
      unfold counter_ok
      rcases get_access_take_spec cur (task_name cur) σ.pool with ⟨_, h2, _⟩ | ⟨_, h2, _⟩
      · rw [h2]
        simp only
        omega
      · rw [h2]
        exact ⟨hc, hl⟩
    · exact ⟨hc, hl⟩
  | release cur =>
    simp only [step]
    split
    · exact ⟨hc, hl⟩
    · simp only
      unfold counter_ok
      rcases release_access_spec cur (task_name cur) σ.pool with ⟨h2, _⟩ | ⟨h2, _⟩
      · rw [h2]
        exact ⟨hc, hl⟩
      · rw [h2]
        exact k_sem_give_ok _ hc hl
  | cleanup =>
    simp only [step, cleanup_threads, k_sem_reset]
    exact ⟨Nat.zero_le _, hl⟩

/-- Every schedule keeps the counter invariant. -/
theorem exec_counter_ok (acts : List Action) (σ : Sys) (h : counter_ok σ.pool) :
    counter_ok (exec acts σ).pool := by
  induction acts generalizing σ with
  | nil => exact h
  | cons a as ih => exact ih (step a σ) (step_counter_ok a σ h)

/-- C1: in every state reached from the state set up by `create_threads` by a
finite schedule of `get_access` (both halves), `release_access` and
`cleanup_threads` steps of any tasks, the count is between 0 and the limit, and
the limit is still 10. -/
theorem counter_invariant (acts : List Action) :
    0 ≤ (exec acts boot).pool.instance_monitor_sem.count ∧
    (exec acts boot).pool.instance_monitor_sem.count
      ≤ (exec acts boot).pool.instance_monitor_sem.limit ∧
    (exec acts boot).pool.instance_monitor_sem.limit = 10 := by
  have h := exec_counter_ok acts boot ⟨by decide, by decide⟩
  exact ⟨Nat.zero_le _, h.1, h.2⟩

/-- Logging an exit raises the acquire count exactly when it is `Resource taken`. -/
theorem successful_acquires_append (t : List (Nat × Outcome)) (cur : Nat) (o : Outcome) :
    successful_acquires (t ++ [(cur, o)]) =
      successful_acquires t + (match o with
        | .resource_taken _ => 1
        | _ => 0) := by
  unfold successful_acquires
  rw [List.countP_append]
  cases o <;> simp [List.countP_cons]

/-- Logging an exit raises the release count exactly when it is `Resource given`. -/
theorem successful_releases_append (t : List (Nat × Outcome)) (cur : Nat) (o : Outcome) :
    successful_releases (t ++ [(cur, o)]) =
      successful_releases t + (match o with
        | .resource_given _ => 1
        | _ => 0) := by
  unfold successful_releases
  rw [List.countP_append]
  cases o <;> simp [List.countP_cons]

/-- A give below a limit of 10 raises the count by one. -/
theorem k_sem_give_below (sem : k_sem) (h : sem.count ≤ sem.limit) (hl : sem.limit = 10)
    (hne : sem.count ≠ sem.limit) : (k_sem_give sem).count = sem.count + 1 := by
  obtain ⟨c, l⟩ := sem
  simp only at h hl hne
  subst hl
  have h1 : (c + 1) % 4294967296 = c + 1 := Nat.mod_eq_of_lt (by omega)
  simp [k_sem_give, UINT_MOD, hne, h1]

/-- A `get_access` or `release_access` step keeps the books balanced, provided a
release step is not taken with the count at the limit. -/
theorem step_balanced (a : Action) (σ : Sys) (h : balanced σ) (hcl : a ≠ Action.cleanup)
    (hrel : not_release_at_capacity a σ) :
    balanced (step a σ) := by
  have hok := step_counter_ok a σ h.1
  refine ⟨hok, ?_⟩
  obtain ⟨⟨hc, hl⟩, hb⟩ := h
  cases a with
  | get_lock cur =>
    simp only [step]
    split
    · exact hb
    · have hs := get_access_lock_spec cur (task_name cur) σ.pool
      split
      · next r heq =>
        have h2 := hs.2 r (by rw [heq])
        simp only
        rw [h2.1, h2.2, successful_acquires_append, successful_releases_append]
        exact hb
      · next p heq =>
        have h1 := hs.1
        rw [heq] at h1
        simp only at h1 ⊢
        rw [h1]
        exact hb
  | get_take cur =>
    simp only [step]
    split
    · simp only
      rw [successful_acquires_append, successful_releases_append]
      rcases get_access_take_spec cur (task_name cur) σ.pool with ⟨h1, h2, h3⟩ | ⟨_, h2, h3⟩
      · rw [h2, h3]
        simp only
        omega
      · rw [h2, h3]
        exact hb
    · exact hb
  | release cur =>
    simp only [step]
    split
    · exact hb
    · simp only
      rw [successful_acquires_append, successful_releases_append]
      rcases release_access_spec cur (task_name cur) σ.pool with ⟨h2, h3⟩ | ⟨h2, h3⟩
      · rw [h2, h3]
        exact hb
      · rw [h2, h3, k_sem_give_below _ hc hl hrel]
        simp only
        omega
  | cleanup => exact absurd rfl hcl

/-- A schedule of `get_access` and `release_access` steps with no release at
capacity keeps the books balanced. -/
theorem exec_balanced (acts : List Action) (σ : Sys) (h : balanced σ)
    (h1 : only_get_release acts) (h2 : no_release_at_capacity acts σ) :
    balanced (exec acts σ) := by
  induction acts generalizing σ with
  | nil => exact h
  | cons a as ih =>
    have ha : a ≠ Action.cleanup := h1 a (List.mem_cons_self a as)
    have hs : balanced (step a σ) := step_balanced a σ h ha h2.1
    exact ih (step a σ) hs (fun b hb => h1 b (List.mem_cons_of_mem a hb)) h2.2

/-- C6: for every finite schedule of `get_access` / `release_access` steps started
from the state of `create_threads` (count 10, limit 10) in which no release is
attempted while the count is at the limit, the final count equals
`10 - (successful acquires - successful releases)`. -/
theorem balanced_accounting (acts : List Action)
    (h1 : only_get_release acts) (h2 : no_release_at_capacity acts boot) :
    ((exec acts boot).pool.instance_monitor_sem.count : Int) =
      10 - ((successful_acquires (exec acts boot).trace : Int)
            - (successful_releases (exec acts boot).trace : Int)) := by
  have hb : balanced boot := ⟨⟨by decide, by decide⟩, by decide⟩
  have h := (exec_balanced acts boot hb h1 h2).2
  omega

/-- C6 on a concrete schedule: two acquires by tasks 1 and 2, a failed release by
task 3 while task 2 waits, then a release by task 1: count 9 = 10 - (2 - 1). -/
theorem balanced_accounting_witness :
    only_get_release [.get_lock 1, .get_take 1, .get_lock 2, .release 3, .get_take 2, .release 1] ∧
    no_release_at_capacity
      [.get_lock 1, .get_take 1, .get_lock 2, .release 3, .get_take 2, .release 1] boot ∧
    (exec [.get_lock 1, .get_take 1, .get_lock 2, .release 3, .get_take 2, .release 1]
        boot).pool.instance_monitor_sem.count = 9 ∧
    ((exec [.get_lock 1, .get_take 1, .get_lock 2, .release 3, .get_take 2, .release 1]
        boot).pool.instance_monitor_sem.count : Int) =
      10 - ((successful_acquires (exec
              [.get_lock 1, .get_take 1, .get_lock 2, .release 3, .get_take 2, .release 1]
              boot).trace : Int)
            - (successful_releases (exec
              [.get_lock 1, .get_take 1, .get_lock 2, .release 3, .get_take 2, .release 1]
              boot).trace : Int)) :=
  ⟨by simp [only_get_release], by simp [no_release_at_capacity, not_release_at_capacity]; decide, by decide,
    balanced_accounting _ (by simp [only_get_release])
      (by simp [no_release_at_capacity, not_release_at_capacity]; decide)⟩

/-- C9, refuted as stated: ten acquires by task 1 empty the pool of
`create_threads`; task 1 then takes the guard inside `get_access` and waits with the
count at 0.  A `release_access` call by task 2 made during that wait leaves through
the guard-busy exit and the count stays 0, so the `get_access` of task 1 leaves
through its timeout exit instead of succeeding. -/
theorem release_during_wait_does_not_land :
    exec ((List.replicate 10 [Action.get_lock 1, Action.get_take 1]).flatten ++ [Action.get_lock 1])
        boot
      = { pool := { instance_monitor_sem := ⟨0, 10⟩, my_mutex := ⟨some 1, 1⟩ },
          waiting := [1],
          trace := (List.range 10).reverse.map fun n => (1, Outcome.resource_taken n) } ∧
    (step (.release 2)
        { pool := { instance_monitor_sem := ⟨0, 10⟩, my_mutex := ⟨some 1, 1⟩ },
          waiting := [1], trace := [] })
      = { pool := { instance_monitor_sem := ⟨0, 10⟩, my_mutex := ⟨some 1, 1⟩ },
          waiting := [1], trace := [(2, .mutex_not_available)] } ∧
    exec [.release 2, .get_take 1]
        { pool := { instance_monitor_sem := ⟨0, 10⟩, my_mutex := ⟨some 1, 1⟩ },
          waiting := [1], trace := [] }
      = { pool := { instance_monitor_sem := ⟨0, 10⟩, my_mutex := k_mutex_init },
          waiting := [],
          trace := [(2, .mutex_not_available), (1, .semaphore_not_available)] } := by
  decide

/-- C9, amended: in the interleaving model where `get_access` is split at its
bounded wait, from a state where task `A` has taken the guard inside `get_access`
and waits with the count at 0, a `release_access` call by another task `B` made
during the wait leaves through the guard-busy exit and changes neither the count
nor the guard; the `get_access` of `A` then leaves through its timeout exit, with
the count still 0 and the guard free. -/
theorem release_during_wait_is_refused (A B : Nat) (σ : Sys)
    (hA : A ∈ σ.waiting) (hB : B ∉ σ.waiting)
    (hg : σ.pool.my_mutex = ⟨some A, 1⟩)
    (hz : σ.pool.instance_monitor_sem.count = 0) :
    step (.release B) σ = { σ with trace := σ.trace ++ [(B, .mutex_not_available)] } ∧
    exec [.release B, .get_take A] σ
      = { pool := { instance_monitor_sem := σ.pool.instance_monitor_sem,
                    my_mutex := k_mutex_init },
          waiting := σ.waiting.erase A,
          trace := σ.trace ++ [(B, .mutex_not_available), (A, .semaphore_not_available)] } ∧
    (exec [.release B, .get_take A] σ).pool.instance_monitor_sem.count = 0 := by
  have hne : B ≠ A := fun h => hB (h ▸ hA)
  obtain ⟨⟨⟨c, l⟩, m⟩, w, t⟩ := σ
  simp only at hA hB hg hz
  subst hg hz
  have ho : (⟨some A, 1⟩ : k_mutex).owner ≠ some B := by
    simp only [ne_eq, Option.some.injEq]
    exact fun h => hne h.symm
  have hr := release_access_busy B (task_name B)
    { instance_monitor_sem := ⟨0, l⟩, my_mutex := ⟨some A, 1⟩ } (by simp) ho
  have hs : step (.release B)
      { pool := { instance_monitor_sem := ⟨0, l⟩, my_mutex := ⟨some A, 1⟩ },
        waiting := w, trace := t }
      = { pool := { instance_monitor_sem := ⟨0, l⟩, my_mutex := ⟨some A, 1⟩ },
          waiting := w, trace := t ++ [(B, .mutex_not_available)] } := by
    simp only [step, hB, if_false, hr]
  have ht : get_access_take A (task_name A)
      { instance_monitor_sem := ⟨0, l⟩, my_mutex := ⟨some A, 1⟩ }
      = { pool := { instance_monitor_sem := ⟨0, l⟩, my_mutex := k_mutex_init },
          outcome := .semaphore_not_available,
          console := "Semaphore not available for " ++ task_name A ++ "\n" } := by
    simp [get_access_take, k_sem_take, k_mutex_unlock, k_mutex_init, EAGAIN]
  have he : exec [.release B, .get_take A]
      { pool := { instance_monitor_sem := ⟨0, l⟩, my_mutex := ⟨some A, 1⟩ },
        waiting := w, trace := t }
      = { pool := { instance_monitor_sem := ⟨0, l⟩, my_mutex := k_mutex_init },
          waiting := w.erase A,
          trace := t ++ [(B, .mutex_not_available), (A, .semaphore_not_available)] } := by
    simp only [exec, hs]
    simp only [step, hA, if_true, ht, List.append_assoc, List.singleton_append]
  exact ⟨hs, he, by rw [he]⟩

/-- C9 amended, at the state where task 1 waits on the emptied pool and task 2 releases. -/
theorem release_during_wait_is_refused_witness :
    (1 : Nat) ∈ [1] ∧ (2 : Nat) ∉ [1] ∧
    exec [.release 2, .get_take 1]
        { pool := { instance_monitor_sem := ⟨0, 10⟩, my_mutex := ⟨some 1, 1⟩ },
          waiting := [1], trace := [] }
      = { pool := { instance_monitor_sem := ⟨0, 10⟩, my_mutex := k_mutex_init },
          waiting := [],
          trace := [(2, .mutex_not_available), (1, .semaphore_not_available)] } :=
  ⟨by decide, by decide,
    (release_during_wait_is_refused 1 2
      { pool := { instance_monitor_sem := ⟨0, 10⟩, my_mutex := ⟨some 1, 1⟩ },
        waiting := [1], trace := [] } (by decide) (by decide) rfl rfl).2.1⟩

/-! ## Interleaved runs: the guard -/

/-- The two halves of `get_access` scheduled back to back are the whole function. -/
theorem exec_lock_then_take (cur : Nat) (σ : Sys) (h : cur ∉ σ.waiting) :
    exec [.get_lock cur, .get_take cur] σ
      = { pool := (get_access cur (task_name cur) σ.pool).pool,
          waiting := σ.waiting,
          trace := σ.trace ++ [(cur, (get_access cur (task_name cur) σ.pool).outcome)] } := by
  obtain ⟨p, w, t⟩ := σ
  simp only at h
  simp only [exec, get_access]
  rcases hl : get_access_lock cur (task_name cur) p with ⟨p1, _ | r⟩
  · simp [step, h, hl]
  · simp [step, h, hl]

/-- Every scheduling step keeps the guard invariant. -/
theorem step_guard_ok (a : Action) (σ : Sys) (h : guard_ok σ) : guard_ok (step a σ) := by
  obtain ⟨⟨sem, m⟩, w, t⟩ := σ
  cases a with
  | get_lock cur =>
    by_cases hw : cur ∈ w
    · simpa [step, hw] using h
    · rcases h with hf | ⟨c, hc, hm⟩
      · simp only at hf
        subst hf
        right
        refine ⟨cur, ?_, ?_⟩ <;>
          simp [step, hw, get_access_lock, k_mutex_lock, k_mutex_init, UINT_MOD]
      · simp only at hc hm
        subst hm
        have hne : c ≠ cur := fun e => hw (e ▸ hc)
        right
        refine ⟨c, ?_, ?_⟩ <;>
          simp [step, hw, get_access_lock, k_mutex_lock, hne, EBUSY, hc]
  | get_take cur =>
    by_cases hw : cur ∈ w
    · rcases h with hf | ⟨c, hc, hm⟩
      · simp only at hf
        subst hf
        left
        by_cases hs : 0 < sem.count <;>
          simp [step, hw, get_access_take, k_sem_take, k_mutex_unlock, k_mutex_init, hs, EAGAIN]
      · simp only at hc hm
        subst hm
        by_cases hcc : c = cur
        · subst hcc
          left
          by_cases hs : 0 < sem.count <;>
            simp [step, hw, get_access_take, k_sem_take, k_mutex_unlock, k_mutex_init, hs,
              EAGAIN]
        · right
          have hmem : c ∈ w.erase cur := (List.mem_erase_of_ne hcc).mpr hc
          refine ⟨c, ?_, ?_⟩ <;> by_cases hs : 0 < sem.count <;>
            simp [step, hw, get_access_take, k_sem_take, k_mutex_unlock, hs, EAGAIN, hcc, hmem]
    · simpa [step, hw] using h
  | release cur =>
    by_cases hw : cur ∈ w
    · simpa [step, hw] using h
    · rcases h with hf | ⟨c, hc, hm⟩
      · simp only at hf
        subst hf
        left
        simp [step, hw, release_access, k_mutex_lock, k_mutex_unlock, k_mutex_init, UINT_MOD]
      · simp only at hc hm
        subst hm
        have hne : c ≠ cur := fun e => hw (e ▸ hc)
        right
        refine ⟨c, ?_, ?_⟩ <;>
          simp [step, hw, release_access, k_mutex_lock, hne, EBUSY, hc]
  | cleanup =>
    left
    simp [step, cleanup_threads]

/-- Every schedule from the state of `create_threads` keeps the guard invariant;
in particular the guard is never locked more than once. -/
theorem exec_guard_ok (acts : List Action) :
    guard_ok (exec acts boot) ∧ (exec acts boot).pool.my_mutex.lock_count ≤ 1 := by
  have key : ∀ (as : List Action) (σ : Sys), guard_ok σ → guard_ok (exec as σ) := by
    intro as
    induction as with
    | nil => exact fun σ h => h
    | cons a as ih => exact fun σ h => ih (step a σ) (step_guard_ok a σ h)
  have h := key acts boot (Or.inl rfl)
  refine ⟨h, ?_⟩
  rcases h with hf | ⟨c, _, hm⟩
  · rw [hf]
    decide
  · rw [hm]

end NcsFund
